import Mathlib

/-!
Shallow embedding of the Targon provider adapter
(src/api/providers/targon.ts, src/api/transform/targon-format.ts, and the
full handler variant in src/test/targon-test.ts, which is the version the
specification describes: it carries the 503 retry, the tool-call
formatting, the error hints and the prompt rewriting).

JavaScript strings, truthiness, JSON.parse and JSON.stringify are modelled
explicitly below; machine-level concerns (HTTP transport, SSE framing) are
external to the repository and appear only as the list of chunks an
attempt delivers and the error that may terminate it.
-/

namespace Targon

/-- Model of JavaScript `String.prototype.startsWith` on character lists. -/
def listStartsWith : List Char → List Char → Bool
  | _, [] => true
  | [], _ :: _ => false
  | a :: as, b :: bs => a = b && listStartsWith as bs

/-- Substring occurrence on character lists (JavaScript `includes`). -/
def listContainsSub : List Char → List Char → Bool
  | [], sub => sub.isEmpty
  | a :: as, sub => listStartsWith (a :: as) sub || listContainsSub as sub

/-- Model of JavaScript `s.includes(sub)`. -/
def jsIncludes (s sub : String) : Bool :=
  listContainsSub s.data sub.data

/-- JavaScript truthiness of an optional string (absent and "" are falsy). -/
def strTruthy : Option String → Bool
  | some s => s ≠ ""
  | none => false

/-- JavaScript `a || d` on an optional number (absent and 0 are falsy). -/
def jsOr (a : Option Nat) (d : Nat) : Nat :=
  match a with
  | some n => if n ≠ 0 then n else d
  | none => d

/-- JSON values, as produced by `JSON.parse` on the argument strings the
adapter handles (objects, arrays, strings with the common escapes, integer
numerals, booleans, null). -/
inductive JsVal where
  | null
  | bool (b : Bool)
  | num (n : Int)
  | str (s : String)
  | arr (xs : List JsVal)
  | obj (fields : List (String × JsVal))

/-- JSON whitespace skipping. -/
def skipWs : List Char → List Char
  | c :: cs => if c = ' ' ∨ c = '\n' ∨ c = '\t' ∨ c = '\r' then skipWs cs else c :: cs
  | [] => []

/-- Body of a JSON string literal after the opening quote; returns the
decoded string and the remaining input. -/
def parseStringBody : List Char → Option (String × List Char)
  | [] => none
  | '"' :: cs => some ("", cs)
  | '\\' :: c :: cs =>
    match (match c with
           | '"' => some "\""
           | '\\' => some "\\"
           | '/' => some "/"
           | 'n' => some "\n"
           | 't' => some "\t"
           | 'r' => some "\r"
           | _ => none) with
    | some esc =>
      match parseStringBody cs with
      | some (rest, cs1) => some (esc ++ rest, cs1)
      | none => none
    | none => none
  | c :: cs =>
    match parseStringBody cs with
    | some (rest, cs1) => some (String.mk [c] ++ rest, cs1)
    | none => none

/-- Decimal digits, at least one, folded to a natural number. -/
def parseDigits (cs : List Char) : Option (Nat × List Char) :=
  let ds := cs.takeWhile Char.isDigit
  if ds.isEmpty then none
  else some (ds.foldl (fun acc c => acc * 10 + (c.toNat - '0'.toNat)) 0, cs.dropWhile Char.isDigit)

mutual

/-- Fuel-indexed recursive-descent parser for one JSON value. -/
def parseValue : Nat → List Char → Option (JsVal × List Char)
  | 0, _ => none
  | Nat.succ fuel, cs0 =>
    match skipWs cs0 with
    | 'n' :: 'u' :: 'l' :: 'l' :: rest => some (.null, rest)
    | 't' :: 'r' :: 'u' :: 'e' :: rest => some (.bool true, rest)
    | 'f' :: 'a' :: 'l' :: 's' :: 'e' :: rest => some (.bool false, rest)
    | '"' :: rest =>
      match parseStringBody rest with
      | some (s, r) => some (.str s, r)
      | none => none
    | '[' :: rest =>
      (match skipWs rest with
       | ']' :: r => some (.arr [], r)
       | cs2 =>
         match parseItems fuel cs2 with
         | some (xs, r) => some (.arr xs, r)
         | none => none)
    | '\x7b' :: rest =>
      (match skipWs rest with
       | '\x7d' :: r => some (.obj [], r)
       | cs2 =>
         match parseFields fuel cs2 with
         | some (fs, r) => some (.obj fs, r)
         | none => none)
    | '-' :: rest =>
      (match parseDigits rest with
       | some (n, r) => some (.num (-(n : Int)), r)
       | none => none)
    | c :: rest =>
      if c.isDigit then
        match parseDigits (c :: rest) with
        | some (n, r) => some (.num (n : Int), r)
        | none => none
      else none
    | [] => none

/-- Comma-separated JSON array items up to the closing bracket. -/
def parseItems : Nat → List Char → Option (List JsVal × List Char)
  | 0, _ => none
  | Nat.succ fuel, cs0 =>
    match parseValue fuel cs0 with
    | some (v, r) =>
      (match skipWs r with
       | ',' :: r2 =>
         match parseItems fuel r2 with
         | some (xs, r3) => some (v :: xs, r3)
         | none => none
       | ']' :: r2 => some ([v], r2)
       | _ => none)
    | none => none

/-- Comma-separated JSON object fields up to the closing brace. -/
def parseFields : Nat → List Char → Option (List (String × JsVal) × List Char)
  | 0, _ => none
  | Nat.succ fuel, cs0 =>
    match skipWs cs0 with
    | '"' :: r =>
      (match parseStringBody r with
       | some (k, r1) =>
         (match skipWs r1 with
          | ':' :: r2 =>
            (match parseValue fuel r2 with
             | some (v, r3) =>
               (match skipWs r3 with
                | ',' :: r4 =>
                  match parseFields fuel r4 with
                  | some (fs, r5) => some ((k, v) :: fs, r5)
                  | none => none
                | '\x7d' :: r4 => some ([(k, v)], r4)
                | _ => none)
             | none => none)
          | _ => none)
       | none => none)
    | _ => none

end

/-- Model of `JSON.parse` (returns `none` where `JSON.parse` throws). -/
def jsonParse (s : String) : Option JsVal :=
  match parseValue (s.length + 2) s.data with
  | some (v, rest) => if skipWs rest = [] then some v else none
  | none => none

/-- One escaped character of JSON string output. -/
def escChar (c : Char) : String :=
  if c = '"' then "\\\""
  else if c = '\\' then "\\\\"
  else if c = '\n' then "\\n"
  else if c = '\t' then "\\t"
  else if c = '\r' then "\\r"
  else String.mk [c]

/-- A JSON string literal with its quotes. -/
def escapeString (s : String) : String :=
  "\"" ++ String.join (s.data.map escChar) ++ "\""

mutual

/-- Model of `JSON.stringify`. -/
def jsonStringify : JsVal → String
  | .null => "null"
  | .bool true => "true"
  | .bool false => "false"
  | .num n => toString n
  | .str s => escapeString s
  | .arr xs => "[" ++ stringifyItems xs ++ "]"
  | .obj fs => "\x7b" ++ stringifyFields fs ++ "\x7d"

/-- Array elements of `JSON.stringify` output. -/
def stringifyItems : List JsVal → String
  | [] => ""
  | [x] => jsonStringify x
  | x :: xs => jsonStringify x ++ "," ++ stringifyItems xs

/-- Object fields of `JSON.stringify` output. -/
def stringifyFields : List (String × JsVal) → String
  | [] => ""
  | [(k, v)] => escapeString k ++ ":" ++ jsonStringify v
  | (k, v) :: fs => escapeString k ++ ":" ++ jsonStringify v ++ "," ++ stringifyFields fs

end

/-- Last binding of a key in an object literal (JavaScript keeps the last
duplicate key). -/
def lookupField : List (String × JsVal) → String → Option JsVal
  | [], _ => none
  | (k, v) :: fs, key =>
    match lookupField fs key with
    | some r => some r
    | none => if k = key then some v else none

/-- JavaScript property access `j[k]`: defined only on objects, `none`
standing for undefined (and for the TypeError on null, which the adapter
swallows in the same way). -/
def jsField (j : JsVal) (k : String) : Option JsVal :=
  match j with
  | .obj fs => lookupField fs k
  | _ => none

/-- JavaScript truthiness of a JSON value. -/
def jsTruthy : JsVal → Bool
  | .null => false
  | .bool b => b
  | .num n => n ≠ 0
  | .str s => s ≠ ""
  | .arr _ => true
  | .obj _ => true

mutual

/-- JavaScript string conversion, as used by template interpolation. -/
def jsToString : JsVal → String
  | .null => "null"
  | .bool true => "true"
  | .bool false => "false"
  | .num n => toString n
  | .str s => s
  | .arr xs => jsToStringItems xs
  | .obj _ => "[object Object]"

/-- Array `toString`: elements joined by commas. -/
def jsToStringItems : List JsVal → String
  | [] => ""
  | [x] => jsToString x
  | x :: xs => jsToString x ++ "," ++ jsToStringItems xs

end

/-- JavaScript `.length` where it is a number: arrays and strings. -/
def jsLength : JsVal → Option Nat
  | .arr xs => some xs.length
  | .str s => some s.length
  | _ => none

/-! ## Data model of the adapter -/

/-- Usage counts a provider chunk may carry
(`chunk.usage.prompt_tokens`, `chunk.usage.completion_tokens`). -/
structure Usage where
  prompt_tokens : Option Nat
  completion_tokens : Option Nat
deriving DecidableEq

/-- The `function` member of a streamed tool call
(`toolCall.function.name`, `toolCall.function.arguments`). -/
structure ToolCallFunction where
  name : Option String
  arguments : Option String
deriving DecidableEq

/-- One element of `chunk.choices[0].delta.tool_calls`. -/
structure ToolCall where
  function : Option ToolCallFunction
deriving DecidableEq

/-- The `delta` member of a choice. -/
structure Delta where
  content : Option String
  tool_calls : Option (List ToolCall)
deriving DecidableEq

/-- The `message` member some provider shapes put on a choice. -/
structure ChoiceMessage where
  content : Option String
deriving DecidableEq

/-- One element of `chunk.choices`: either an object with optional `delta`
and `message` members, or a bare string (the adapter sniffs both shapes). -/
inductive Choice where
  | obj (delta : Option Delta) (message : Option ChoiceMessage)
  | str (s : String)
deriving DecidableEq

/-- One provider stream event: an object with optional `choices`,
`content` and `usage` members, or a bare string. -/
inductive Chunk where
  | obj (choices : Option (List Choice)) (content : Option String) (usage : Option Usage)
  | str (s : String)
deriving DecidableEq

/-- An error thrown by the provider client: an optional HTTP status and a
message string. -/
structure ApiError where
  status : Option Nat
  message : String
deriving DecidableEq

/-- One provider call as observed by the adapter: the chunks the stream
delivered, then either clean end (`err = none`) or a thrown error. A call
that fails before the first chunk is `⟨[], some e⟩`. -/
structure Attempt where
  chunks : List Chunk
  err : Option ApiError
deriving DecidableEq

/-- Model metadata from the shared model table (`maxTokens` may be absent). -/
structure ModelInfo where
  maxTokens : Option Nat
deriving DecidableEq

/-- Adapter configuration (`options.targonApiKey`, `options.apiModelId`);
`none` stands for an absent field. -/
structure HandlerOptions where
  targonApiKey : Option String
  apiModelId : Option String
deriving DecidableEq

/-- Content of an inbound Anthropic message: a plain string or a
structured value (serialized with `JSON.stringify` before transmission). -/
inductive MsgContent where
  | str (s : String)
  | other (j : JsVal)

/-- One inbound conversation message. -/
structure AnthMsg where
  role : String
  content : MsgContent

/-- One role/content pair of the outbound request. -/
structure ReqMsg where
  role : String
  content : String
deriving DecidableEq

/-- The outbound Request Envelope. `tools = true` stands for attaching the
one fixed `ask_followup_question` function schema; `false` for omitting
the `tools` member. -/
structure Request where
  model : String
  messages : List ReqMsg
  stream : Bool
  temperature : Rat
  max_tokens : Nat
  tools : Bool
deriving DecidableEq

/-- The Metrics Record returned by `getApiMetrics`. -/
structure ApiMetrics where
  tokensIn : Nat
  tokensOut : Nat
  tokensTotal : Nat
  timeTotal : Nat
deriving DecidableEq

/-- The Response Summary assembled after streaming completes. -/
structure ApiResponse where
  id : String
  model : String
  created : Nat
  content : String
  metrics : ApiMetrics
deriving DecidableEq

/-- Mutable loop state of one `createMessage` run: the accumulated
response buffer and the captured token counters. -/
structure LoopState where
  responseText : String
  tokensIn : Nat
  tokensOut : Nat
deriving DecidableEq

/-- One fragment yielded to the caller, tagged by the yield site that
produced it: a content delta, a synthesized tool-call block, or the final
Response Summary (serialized with `TargonFormatResponse` on the wire). All
three are `\x7btype:"text"\x7d` fragments in the source. -/
inductive Frag where
  | text (s : String)
  | toolCall (s : String)
  | summary (r : ApiResponse)
deriving DecidableEq

/-- The observable outcome of one `createMessage` run: the requests issued
to the provider client in order, the fragments yielded, and the error
raised to the caller, if any. -/
structure GenResult where
  requests : List Request
  frags : List Frag
  error : Option String
deriving DecidableEq

/-! ## Operations -/

/-- Model of `String.prototype.toLowerCase`: `Char.toLower` applied to
each character. -/
def strToLower (s : String) : String := String.mk (s.data.map Char.toLower)

/-- Case-insensitive conciseness-marker test used by `makePromptConcise`
(`systemPrompt.toLowerCase().includes(...)` over the three substrings). -/
def hasConcisenessMarker (systemPrompt : String) : Bool :=
  jsIncludes (strToLower systemPrompt) "concise" ||
  jsIncludes (strToLower systemPrompt) "brief" ||
  jsIncludes (strToLower systemPrompt) "short"

/-- The fixed instruction block `makePromptConcise` appends. -/
def concisenessSuffix : String :=
  "\n\nIMPORTANT: Be extremely concise. Provide only direct answers with no explanations, thinking, or reasoning. No \"Let\x27s tackle this\" or \"First, I need to\" statements. Just give the final result or action."

/-- `TargonHandler.makePromptConcise` (targon-test.ts lines 373-386). -/
def makePromptConcise (systemPrompt : String) : String :=
  if hasConcisenessMarker systemPrompt then systemPrompt
  else systemPrompt ++ concisenessSuffix

/-- Association-list lookup in the model table (`modelId in targonModels`
followed by `targonModels[modelId]`). -/
def lookupModel : List (String × ModelInfo) → String → Option ModelInfo
  | [], _ => none
  | (k, v) :: tbl, key => if k = key then some v else lookupModel tbl key

/-- `TargonHandler.getModel` (targon-test.ts lines 78-88). The table and
the default entry live in shared configuration outside this repository,
so they are parameters; `defaultInfo` stands for
`targonModels[targonDefaultModelId]`. -/
def getModel (table : List (String × ModelInfo)) (defaultId : String)
    (defaultInfo : ModelInfo) (opts : HandlerOptions) : String × ModelInfo :=
  match opts.apiModelId with
  | some modelId =>
    if modelId ≠ "" then
      match lookupModel table modelId with
      | some info => (modelId, info)
      | none => (defaultId, defaultInfo)
    else (defaultId, defaultInfo)
  | none => (defaultId, defaultInfo)

/-- Serialization of message content
(`typeof msg.content === "string" ? msg.content : JSON.stringify(msg.content)`). -/
def serializeContent : MsgContent → String
  | .str s => s
  | .other j => jsonStringify j

/-- The formatted message list: a system entry from the rewritten prompt
followed by the input messages (targon-test.ts lines 108-121). -/
def formatMessages (concisePrompt : String) (messages : List AnthMsg) : List ReqMsg :=
  ⟨"system", concisePrompt⟩ :: messages.map (fun m => ⟨m.role, serializeContent m.content⟩)

/-- Whether the fixed tool definition is attached: some input message has
truthy string content containing "ask_followup_question"
(targon-test.ts lines 150-152). -/
def needsTools (messages : List AnthMsg) : Bool :=
  messages.any fun m =>
    match m.content with
    | .str s => s ≠ "" && jsIncludes s "ask_followup_question"
    | .other _ => false

/-- The first request submitted by `createMessage`
(targon-test.ts lines 143-183). -/
def mainRequest (modelId : String) (info : ModelInfo) (msgs : List ReqMsg)
    (withTools : Bool) : Request :=
  { model := modelId, messages := msgs, stream := true,
    temperature := (7 : Rat) / 10, max_tokens := jsOr info.maxTokens 4096,
    tools := withTools }

/-- The simplified request of the 503 retry
(targon-test.ts lines 284-290). -/
def retryRequest (modelId : String) (msgs : List ReqMsg) : Request :=
  { model := modelId, messages := msgs, stream := true,
    temperature := 0, max_tokens := 1024, tools := false }

/-- Concatenation of a list of strings, used to state what the response
buffer accumulates. -/
def concatAll : List String → String
  | [] => ""
  | s :: ss => s ++ concatAll ss

/-- Truthy string content, `none` when falsy (undefined or ""). -/
def truthyContent : Option String → Option String
  | some s => if s = "" then none else some s
  | none => none

/-- Content extraction of the main loop, trying the possible shapes in
order (targon-test.ts lines 190-205): `choices[0].delta.content`, then
`choices[0].message.content`, then a bare-string choice, then
`chunk.content`, then the chunk itself being a string. -/
def extractContent : Chunk → String
  | .str s => s
  | .obj choices content _ =>
    match choices with
    | some (ch :: _) =>
      (match ch with
       | .str s => s
       | .obj delta message =>
         match delta.bind (fun d => truthyContent d.content) with
         | some s => s
         | none =>
           match message.bind (fun m => truthyContent m.content) with
           | some s => s
           | none => "")
    | some [] =>
      (match truthyContent content with
       | some s => s
       | none => "")
    | none =>
      match truthyContent content with
      | some s => s
      | none => ""

/-- `chunk.choices && chunk.choices.length > 0 ? chunk.choices[0]?.delta?.tool_calls : undefined`
(targon-test.ts line 218). -/
def chunkToolCalls : Chunk → Option (List ToolCall)
  | .str _ => none
  | .obj choices _ _ =>
    match choices with
    | some (Choice.obj delta _ :: _) => delta.bind (fun d => d.tool_calls)
    | _ => none

/-- The usage member of a chunk. -/
def chunkUsage : Chunk → Option Usage
  | .str _ => none
  | .obj _ _ usage => usage

/-- The `<options>` block appended when `args.options` is truthy with
positive length (targon-test.ts lines 232-235). -/
def optionsText (args : JsVal) : String :=
  match jsField args "options" with
  | some ov =>
    if jsTruthy ov && (match jsLength ov with | some n => decide (0 < n) | none => false) then
      "\n<options>\n" ++ jsonStringify ov ++ "\n</options>"
    else ""
  | none => ""

/-- Processing of one streamed tool call (targon-test.ts lines 220-246):
only the hardcoded `ask_followup_question` tool is recognized; its
arguments string is parsed by itself (`none` both when `JSON.parse`
throws, swallowed by the inner catch, and when `question` is falsy,
skipped by `continue`). -/
def toolCallFrag (tc : ToolCall) : Option String :=
  match tc.function with
  | none => none
  | some f =>
    if f.name = some "ask_followup_question" then
      match (match f.arguments with
             | some s => if s ≠ "" then jsonParse s else some (.obj [])
             | none => some (.obj [])) with
      | none => none
      | some args =>
        match jsField args "question" with
        | none => none
        | some qv =>
          if jsTruthy qv then
            some ("<ask_followup_question>\n<question>" ++ jsToString qv ++
              "</question>" ++ optionsText args ++ "\n</ask_followup_question>")
          else none
    else none

/-- All tool-call fragments one chunk synthesizes. -/
def chunkToolFrags (c : Chunk) : List String :=
  match chunkToolCalls c with
  | some tcs => if tcs.length > 0 then tcs.filterMap toolCallFrag else []
  | none => []

/-- One iteration of the main consumption loop
(targon-test.ts lines 185-255): extract and yield the content delta,
yield synthesized tool-call blocks, capture usage counts (last value
wins, absent fields default to 0). -/
def stepChunk (st : LoopState) (c : Chunk) : LoopState × List Frag :=
  let content := extractContent c
  let rt := if content ≠ "" then st.responseText ++ content else st.responseText
  let contentFrags := if content ≠ "" then [Frag.text content] else []
  let toolFrags := (chunkToolFrags c).map Frag.toolCall
  let tin := match chunkUsage c with
             | some u => u.prompt_tokens.getD 0
             | none => st.tokensIn
  let tout := match chunkUsage c with
              | some u => u.completion_tokens.getD 0
              | none => st.tokensOut
  (⟨rt, tin, tout⟩, contentFrags ++ toolFrags)

/-- The main consumption loop over the delivered chunks. -/
def runLoop (st : LoopState) : List Chunk → LoopState × List Frag
  | [] => (st, [])
  | c :: cs =>
    ((runLoop (stepChunk st c).1 cs).1,
     (stepChunk st c).2 ++ (runLoop (stepChunk st c).1 cs).2)

/-- Content extraction of the retry loop, which only looks at
`choices[0].delta.content` (targon-test.ts lines 296-301). -/
def retryExtractContent : Chunk → String
  | .obj (some (Choice.obj delta _ :: _)) _ _ =>
    (match delta.bind (fun d => truthyContent d.content) with
     | some s => s
     | none => "")
  | _ => ""

/-- One iteration of the retry loop (targon-test.ts lines 292-310):
content only; tool calls and usage are not reprocessed. -/
def retryStep (st : LoopState) (c : Chunk) : LoopState × List Frag :=
  let content := retryExtractContent c
  (⟨if content ≠ "" then st.responseText ++ content else st.responseText,
    st.tokensIn, st.tokensOut⟩,
   if content ≠ "" then [Frag.text content] else [])

/-- The retry consumption loop. -/
def runRetryLoop (st : LoopState) : List Chunk → LoopState × List Frag
  | [] => (st, [])
  | c :: cs =>
    ((runRetryLoop (retryStep st c).1 cs).1,
     (retryStep st c).2 ++ (runRetryLoop (retryStep st c).1 cs).2)

/-- `getApiMetrics` (targon-format.ts lines 5-14); `endTime` models the
`Date.now()` call made inside it. -/
def getApiMetrics (startTime : Nat) (tokensIn : Nat) (tokensOut : Nat)
    (endTime : Nat) : ApiMetrics :=
  { tokensIn := tokensIn, tokensOut := tokensOut,
    tokensTotal := tokensIn + tokensOut, timeTotal := endTime - startTime }

/-- The Response Summary record assembled after streaming completes
(targon-test.ts lines 258-271 and 313-326). -/
def mkResponse (requestId modelId : String) (st : LoopState)
    (startTime endTime : Nat) : ApiResponse :=
  let metrics := getApiMetrics startTime st.tokensIn st.tokensOut endTime
  { id := requestId, model := modelId, created := startTime / 1000,
    content := st.responseText, metrics := metrics }

/-- `TargonFormatResponse` (targon-format.ts lines 92-103). -/
def TargonFormatResponse (r : ApiResponse) : String :=
  jsonStringify (.obj
    [("id", .str r.id), ("model", .str r.model),
     ("created", .num (r.created : Int)), ("content", .str r.content),
     ("tokensIn", .num (r.metrics.tokensIn : Int)),
     ("tokensOut", .num (r.metrics.tokensOut : Int)),
     ("tokensTotal", .num (r.metrics.tokensTotal : Int)),
     ("timeTotal", .num (r.metrics.timeTotal : Int))])

/-- The wire text of a fragment: every yield in the source is a
`\x7btype:"text"\x7d` fragment and the summary goes out serialized. -/
def fragText : Frag → String
  | .text s => s
  | .toolCall s => s
  | .summary r => TargonFormatResponse r

/-- The 503 test applied to a caught error
(`error.status === 503 || (error.message && error.message.includes("503"))`,
targon-test.ts line 279). -/
def is503 (e : ApiError) : Bool :=
  e.status = some 503 || (e.message ≠ "" && jsIncludes e.message "503")

/-- The fixed remedy hint for authentication failures. -/
def hint401 : String := " - Please check your API key and ensure it is valid."

/-- The fixed remedy hint for permission failures. -/
def hint403 : String := " - You may not have permission to access this resource."

/-- The fixed remedy hint for missing resources. -/
def hint404 : String := " - The requested resource was not found. Check the model ID."

/-- The fixed remedy hint for rate limiting. -/
def hint429 : String := " - Rate limit exceeded. Please try again later."

/-- The fixed remedy hint for server errors. -/
def hint5xx : String := " - Server error. The Targon API may be experiencing issues. Try again with a simpler prompt or fewer tokens."

/-- The hint selected by pattern-matching the error text
(targon-test.ts lines 350-361); "" when no pattern matches. -/
def selectHint (msg : String) : String :=
  if jsIncludes msg "401" || jsIncludes msg "authentication" then hint401
  else if jsIncludes msg "403" then hint403
  else if jsIncludes msg "404" then hint404
  else if jsIncludes msg "429" then hint429
  else if jsIncludes msg "500" || jsIncludes msg "502" || jsIncludes msg "503" then hint5xx
  else ""

/-- The general error message construction
(targon-test.ts lines 342-361): base message, status code when truthy,
then the selected hint. -/
def buildErrorMessage (e : ApiError) : String :=
  let base :=
    match e.status with
    | some s => if s ≠ 0 then "Targon API error: " ++ toString s ++ " " ++ e.message
                else "Targon API error: " ++ e.message
    | none => "Targon API error: " ++ e.message
  base ++ selectHint e.message

/-- `TargonHandler.createMessage` (targon-test.ts lines 90-366), as the
observable behaviour of one run of the generator body. The provider
client is modelled by the two possible attempts (`attempt2` is consulted
only on the 503 retry path); `requestId` models the `uuidv4()` call and
`startTime`/`endTime` the two `Date.now()` readings. The `withRetry`
decorator is external to the repository and not part of this function. -/
def createMessage (table : List (String × ModelInfo)) (defaultId : String)
    (defaultInfo : ModelInfo) (opts : HandlerOptions)
    (systemPrompt : String) (messages : List AnthMsg)
    (requestId : String) (startTime endTime : Nat)
    (attempt1 attempt2 : Attempt) : GenResult :=
  let model := getModel table defaultId defaultInfo opts
  if strTruthy opts.targonApiKey = false then
    { requests := [], frags := [], error := some "Targon API key not found" }
  else
    let concisePrompt := makePromptConcise systemPrompt
    let msgs := formatMessages concisePrompt messages
    let req1 := mainRequest model.1 model.2 msgs (needsTools messages)
    let p1 := runLoop ⟨"", 0, 0⟩ attempt1.chunks
    match attempt1.err with
    | none =>
      { requests := [req1],
        frags := p1.2 ++ [Frag.summary (mkResponse requestId model.1 p1.1 startTime endTime)],
        error := none }
    | some e =>
      if is503 e then
        let req2 := retryRequest model.1 msgs
        let p2 := runRetryLoop p1.1 attempt2.chunks
        match attempt2.err with
        | none =>
          { requests := [req1, req2],
            frags := p1.2 ++ p2.2 ++
              [Frag.summary (mkResponse requestId model.1 p2.1 startTime endTime)],
            error := none }
        | some retryError =>
          { requests := [req1, req2], frags := p1.2 ++ p2.2,
            error := some (buildErrorMessage retryError) }
      else
        { requests := [req1], frags := p1.2,
          error := some (buildErrorMessage e) }

/-! ## Concrete fixtures used to evaluate the operations on sample inputs -/

/-- A provider chunk carrying one content delta. -/
def chunkText (s : String) : Chunk :=
  Chunk.obj (some [Choice.obj (some ⟨some s, none⟩) none]) none none

/-- A terminal provider chunk carrying only usage counts. -/
def chunkOfUsage (pin pout : Nat) : Chunk :=
  Chunk.obj (some []) none (some ⟨some pin, some pout⟩)

/-- A provider chunk carrying one `ask_followup_question` tool-call delta
with the given arguments string. -/
def chunkTool (args : String) : Chunk :=
  Chunk.obj
    (some [Choice.obj (some ⟨none, some [⟨some ⟨some "ask_followup_question", some args⟩⟩]⟩) none])
    none none

/-- A one-entry model table for sample runs. -/
def sampleTable : List (String × ModelInfo) := [("deepseek-ai/DeepSeek-V3", ⟨some 8192⟩)]

/-- The default entry of the sample table. -/
def sampleInfo : ModelInfo := ⟨some 8192⟩

/-- Options with an API key and a model id present in the sample table. -/
def sampleOpts : HandlerOptions := ⟨some "key", some "deepseek-ai/DeepSeek-V3"⟩

/-! ## Helper lemmas -/

theorem listStartsWith_append (y z : List Char) : listStartsWith (y ++ z) y = true := by
  induction y with
  | nil => cases z <;> rfl
  | cons a as ih => simpa [listStartsWith] using ih

theorem listContainsSub_of_startsWith (s sub : List Char)
    (h : listStartsWith s sub = true) : listContainsSub s sub = true := by
  cases s with
  | nil =>
    cases sub with
    | nil => rfl
    | cons b bs => simp [listStartsWith] at h
  | cons a as => simp [listContainsSub, h]

theorem listContainsSub_append_left (x r y : List Char)
    (h : listContainsSub r y = true) : listContainsSub (x ++ r) y = true := by
  induction x with
  | nil => simpa using h
  | cons a as ih => simp [listContainsSub, ih]

theorem jsIncludes_middle (a b c : String) : jsIncludes (a ++ (b ++ c)) b = true := by
  unfold jsIncludes
  rw [String.data_append a (b ++ c), String.data_append b c]
  exact listContainsSub_append_left a.data _ b.data
    (listContainsSub_of_startsWith _ _ (listStartsWith_append b.data c.data))

set_option maxRecDepth 40000 in
theorem append_concisenessSuffix_ne (s : String) : s ++ concisenessSuffix ≠ s := by
  intro h
  have hl := congrArg String.length h
  rw [String.length_append] at hl
  have hpos : 0 < concisenessSuffix.length := by decide
  omega

set_option maxRecDepth 40000 in
theorem targon_error_ne_key_missing (s : String) :
    "Targon API error: " ++ s ≠ "Targon API key not found" := by
  intro h
  have hd := congrArg String.data h
  rw [String.data_append] at hd
  have ht := congrArg (List.take 18) hd
  rw [List.take_append_of_le_length (by decide)] at ht
  exact absurd ht (by decide)

theorem buildErrorMessage_some (e : ApiError) (n : Nat)
    (hs : e.status = some n) (hn : n ≠ 0) :
    buildErrorMessage e
      = "Targon API error: " ++ (toString n ++ (" " ++ (e.message ++ selectHint e.message))) := by
  unfold buildErrorMessage
  simp [hs, hn, String.append_assoc]

theorem buildErrorMessage_none (e : ApiError) (hs : e.status = none) :
    buildErrorMessage e = "Targon API error: " ++ (e.message ++ selectHint e.message) := by
  unfold buildErrorMessage
  simp [hs, String.append_assoc]

theorem buildErrorMessage_zero (e : ApiError) (hs : e.status = some 0) :
    buildErrorMessage e = "Targon API error: " ++ (e.message ++ selectHint e.message) := by
  unfold buildErrorMessage
  simp [hs, String.append_assoc]

theorem buildErrorMessage_shape (e : ApiError) :
    ∃ t, buildErrorMessage e = "Targon API error: " ++ t := by
  cases h : e.status with
  | none => exact ⟨_, buildErrorMessage_none e h⟩
  | some n =>
    by_cases hn : n = 0
    · exact ⟨_, buildErrorMessage_zero e (hn ▸ h)⟩
    · exact ⟨_, buildErrorMessage_some e n h hn⟩

theorem buildErrorMessage_contains_status (e : ApiError) (n : Nat)
    (hs : e.status = some n) (hn : n ≠ 0) :
    jsIncludes (buildErrorMessage e) (toString n) = true := by
  rw [buildErrorMessage_some e n hs hn]
  exact jsIncludes_middle "Targon API error: " (toString n)
    (" " ++ (e.message ++ selectHint e.message))

theorem selectHint_mem (msg : String)
    (h : (jsIncludes msg "401" || jsIncludes msg "403" || jsIncludes msg "404" ||
          jsIncludes msg "429" || jsIncludes msg "500" || jsIncludes msg "502" ||
          jsIncludes msg "503") = true) :
    selectHint msg = hint401 ∨ selectHint msg = hint403 ∨ selectHint msg = hint404 ∨
    selectHint msg = hint429 ∨ selectHint msg = hint5xx := by
  unfold selectHint
  split_ifs with h1 h2 h3 h4 h5
  · exact Or.inl rfl
  · exact Or.inr (Or.inl rfl)
  · exact Or.inr (Or.inr (Or.inl rfl))
  · exact Or.inr (Or.inr (Or.inr (Or.inl rfl)))
  · exact Or.inr (Or.inr (Or.inr (Or.inr rfl)))
  · simp only [Bool.or_eq_true] at h h1 h5
    rcases h with ((((((c1 | c2) | c3) | c4) | c5) | c6) | c7)
    · exact absurd (Or.inl c1) h1
    · exact absurd c2 h2
    · exact absurd c3 h3
    · exact absurd c4 h4
    · exact absurd (Or.inl (Or.inl c5)) h5
    · exact absurd (Or.inl (Or.inr c6)) h5
    · exact absurd (Or.inr c7) h5

theorem buildErrorMessage_append_hint (e : ApiError) :
    buildErrorMessage e =
      (match e.status with
       | some s => if s ≠ 0 then "Targon API error: " ++ toString s ++ " " ++ e.message
                   else "Targon API error: " ++ e.message
       | none => "Targon API error: " ++ e.message) ++ selectHint e.message := rfl

theorem selectHint_401 (msg : String) (h : jsIncludes msg "401" = true) :
    selectHint msg = hint401 := by
  unfold selectHint
  simp [h]

theorem stepChunk_responseText (st : LoopState) (c : Chunk) :
    (stepChunk st c).1.responseText = st.responseText ++ extractContent c := by
  unfold stepChunk
  by_cases h : extractContent c = "" <;> simp [h]

theorem runLoop_responseText (cs : List Chunk) (st : LoopState) :
    (runLoop st cs).1.responseText
      = st.responseText ++ concatAll (cs.map extractContent) := by
  induction cs generalizing st with
  | nil => simp [runLoop, concatAll]
  | cons c cs ih =>
    simp [runLoop, concatAll, ih, stepChunk_responseText, String.append_assoc]

theorem stepChunk_tokens_no_usage (st : LoopState) (c : Chunk)
    (h : chunkUsage c = none) :
    (stepChunk st c).1.tokensIn = st.tokensIn ∧
    (stepChunk st c).1.tokensOut = st.tokensOut := by
  unfold stepChunk
  simp [h]

theorem runLoop_tokens_no_usage (cs : List Chunk) (st : LoopState)
    (h : ∀ c ∈ cs, chunkUsage c = none) :
    (runLoop st cs).1.tokensIn = st.tokensIn ∧
    (runLoop st cs).1.tokensOut = st.tokensOut := by
  induction cs generalizing st with
  | nil => simp [runLoop]
  | cons c cs ih =>
    have hc := h c (by simp)
    have hrest : ∀ c' ∈ cs, chunkUsage c' = none := fun c' hm => h c' (by simp [hm])
    have hs := stepChunk_tokens_no_usage st c hc
    have hi := ih (stepChunk st c).1 hrest
    constructor
    · show (runLoop (stepChunk st c).1 cs).1.tokensIn = st.tokensIn
      rw [hi.1, hs.1]
    · show (runLoop (stepChunk st c).1 cs).1.tokensOut = st.tokensOut
      rw [hi.2, hs.2]

theorem stepChunk_snd (st : LoopState) (c : Chunk) :
    (stepChunk st c).2
      = (if extractContent c ≠ "" then [Frag.text (extractContent c)] else [])
        ++ (chunkToolFrags c).map Frag.toolCall := rfl

theorem retryStep_snd (st : LoopState) (c : Chunk) :
    (retryStep st c).2
      = if retryExtractContent c ≠ "" then [Frag.text (retryExtractContent c)] else [] := rfl

theorem stepChunk_frags_shape (st : LoopState) (c : Chunk) (f : Frag)
    (hf : f ∈ (stepChunk st c).2) :
    (∃ s, f = Frag.text s) ∨ ∃ s, f = Frag.toolCall s := by
  rw [stepChunk_snd] at hf
  rcases List.mem_append.mp hf with hf | hf
  · by_cases h : extractContent c = ""
    · simp [h] at hf
    · rw [if_pos h] at hf
      exact Or.inl ⟨_, List.mem_singleton.mp hf⟩
  · rcases List.mem_map.mp hf with ⟨t, _, ht⟩
    exact Or.inr ⟨t, ht.symm⟩

theorem runLoop_frags_shape (cs : List Chunk) (st : LoopState) (f : Frag)
    (hf : f ∈ (runLoop st cs).2) :
    (∃ s, f = Frag.text s) ∨ ∃ s, f = Frag.toolCall s := by
  induction cs generalizing st with
  | nil => simp [runLoop] at hf
  | cons c cs ih =>
    simp only [runLoop, List.mem_append] at hf
    rcases hf with hf | hf
    · exact stepChunk_frags_shape st c f hf
    · exact ih _ hf

theorem stepChunk_toolCall_mem (st : LoopState) (c : Chunk) (t : String)
    (ht : t ∈ chunkToolFrags c) :
    Frag.toolCall t ∈ (stepChunk st c).2 := by
  rw [stepChunk_snd]
  exact List.mem_append_right _ (List.mem_map_of_mem _ ht)

theorem runLoop_toolCall_mem (cs : List Chunk) (st : LoopState) (c : Chunk) (t : String)
    (hc : c ∈ cs) (ht : t ∈ chunkToolFrags c) :
    Frag.toolCall t ∈ (runLoop st cs).2 := by
  induction cs generalizing st with
  | nil => cases hc
  | cons c0 cs ih =>
    simp only [runLoop, List.mem_append]
    rcases List.mem_cons.mp hc with h | h
    · exact Or.inl (h ▸ stepChunk_toolCall_mem st c0 t (h ▸ ht))
    · exact Or.inr (ih _ h)

theorem retryStep_tokens (st : LoopState) (c : Chunk) :
    (retryStep st c).1.tokensIn = st.tokensIn ∧
    (retryStep st c).1.tokensOut = st.tokensOut := by
  unfold retryStep
  by_cases h : retryExtractContent c = "" <;> simp [h]

theorem runRetryLoop_tokens (cs : List Chunk) (st : LoopState) :
    (runRetryLoop st cs).1.tokensIn = st.tokensIn ∧
    (runRetryLoop st cs).1.tokensOut = st.tokensOut := by
  induction cs generalizing st with
  | nil => simp [runRetryLoop]
  | cons c cs ih =>
    have hs := retryStep_tokens st c
    have hi := ih (retryStep st c).1
    constructor
    · show (runRetryLoop (retryStep st c).1 cs).1.tokensIn = st.tokensIn
      rw [hi.1, hs.1]
    · show (runRetryLoop (retryStep st c).1 cs).1.tokensOut = st.tokensOut
      rw [hi.2, hs.2]

theorem retryStep_responseText (st : LoopState) (c : Chunk) :
    (retryStep st c).1.responseText = st.responseText ++ retryExtractContent c := by
  unfold retryStep
  by_cases h : retryExtractContent c = "" <;> simp [h]

theorem runRetryLoop_responseText (cs : List Chunk) (st : LoopState) :
    (runRetryLoop st cs).1.responseText
      = st.responseText ++ concatAll (cs.map retryExtractContent) := by
  induction cs generalizing st with
  | nil => simp [runRetryLoop, concatAll]
  | cons c cs ih =>
    simp [runRetryLoop, concatAll, ih, retryStep_responseText, String.append_assoc]

theorem retryStep_frags_text (st : LoopState) (c : Chunk) (f : Frag)
    (hf : f ∈ (retryStep st c).2) : ∃ s, f = Frag.text s := by
  rw [retryStep_snd] at hf
  by_cases h : retryExtractContent c = ""
  · simp [h] at hf
  · rw [if_pos h] at hf
    exact ⟨_, List.mem_singleton.mp hf⟩

theorem runRetryLoop_frags_text (cs : List Chunk) (st : LoopState) (f : Frag)
    (hf : f ∈ (runRetryLoop st cs).2) : ∃ s, f = Frag.text s := by
  induction cs generalizing st with
  | nil => simp [runRetryLoop] at hf
  | cons c cs ih =>
    simp only [runRetryLoop, List.mem_append] at hf
    rcases hf with hf | hf
    · exact retryStep_frags_text st c f hf
    · exact ih _ hf

variable (table : List (String × ModelInfo)) (defaultId : String) (defaultInfo : ModelInfo)
  (opts : HandlerOptions) (sp : String) (msgs : List AnthMsg) (reqId : String)
  (t0 t1 : Nat) (a1 a2 : Attempt)

theorem createMessage_no_key (h : strTruthy opts.targonApiKey = false) :
    createMessage table defaultId defaultInfo opts sp msgs reqId t0 t1 a1 a2
      = ⟨[], [], some "Targon API key not found"⟩ := by
  unfold createMessage
  simp [h]

theorem createMessage_ok (hkey : strTruthy opts.targonApiKey = true)
    (hok : a1.err = none) :
    createMessage table defaultId defaultInfo opts sp msgs reqId t0 t1 a1 a2
      = ⟨[mainRequest (getModel table defaultId defaultInfo opts).1
            (getModel table defaultId defaultInfo opts).2
            (formatMessages (makePromptConcise sp) msgs) (needsTools msgs)],
         (runLoop ⟨"", 0, 0⟩ a1.chunks).2 ++
           [Frag.summary (mkResponse reqId (getModel table defaultId defaultInfo opts).1
             (runLoop ⟨"", 0, 0⟩ a1.chunks).1 t0 t1)],
         none⟩ := by
  unfold createMessage
  simp [hkey, hok]

theorem createMessage_503_ok (e : ApiError)
    (hkey : strTruthy opts.targonApiKey = true)
    (he : a1.err = some e) (h503 : is503 e = true) (hretry : a2.err = none) :
    createMessage table defaultId defaultInfo opts sp msgs reqId t0 t1 a1 a2
      = ⟨[mainRequest (getModel table defaultId defaultInfo opts).1
            (getModel table defaultId defaultInfo opts).2
            (formatMessages (makePromptConcise sp) msgs) (needsTools msgs),
          retryRequest (getModel table defaultId defaultInfo opts).1
            (formatMessages (makePromptConcise sp) msgs)],
         (runLoop ⟨"", 0, 0⟩ a1.chunks).2 ++
           (runRetryLoop (runLoop ⟨"", 0, 0⟩ a1.chunks).1 a2.chunks).2 ++
           [Frag.summary (mkResponse reqId (getModel table defaultId defaultInfo opts).1
             (runRetryLoop (runLoop ⟨"", 0, 0⟩ a1.chunks).1 a2.chunks).1 t0 t1)],
         none⟩ := by
  unfold createMessage
  simp [hkey, he, h503, hretry]

theorem createMessage_503_fail (e e2 : ApiError)
    (hkey : strTruthy opts.targonApiKey = true)
    (he : a1.err = some e) (h503 : is503 e = true) (hretry : a2.err = some e2) :
    createMessage table defaultId defaultInfo opts sp msgs reqId t0 t1 a1 a2
      = ⟨[mainRequest (getModel table defaultId defaultInfo opts).1
            (getModel table defaultId defaultInfo opts).2
            (formatMessages (makePromptConcise sp) msgs) (needsTools msgs),
          retryRequest (getModel table defaultId defaultInfo opts).1
            (formatMessages (makePromptConcise sp) msgs)],
         (runLoop ⟨"", 0, 0⟩ a1.chunks).2 ++
           (runRetryLoop (runLoop ⟨"", 0, 0⟩ a1.chunks).1 a2.chunks).2,
         some (buildErrorMessage e2)⟩ := by
  unfold createMessage
  simp [hkey, he, h503, hretry]

theorem createMessage_plain_fail (e : ApiError)
    (hkey : strTruthy opts.targonApiKey = true)
    (he : a1.err = some e) (h503 : is503 e = false) :
    createMessage table defaultId defaultInfo opts sp msgs reqId t0 t1 a1 a2
      = ⟨[mainRequest (getModel table defaultId defaultInfo opts).1
            (getModel table defaultId defaultInfo opts).2
            (formatMessages (makePromptConcise sp) msgs) (needsTools msgs)],
         (runLoop ⟨"", 0, 0⟩ a1.chunks).2,
         some (buildErrorMessage e)⟩ := by
  unfold createMessage
  simp [hkey, he, h503]

theorem createMessage_head_request (hkey : strTruthy opts.targonApiKey = true) :
    (createMessage table defaultId defaultInfo opts sp msgs reqId t0 t1 a1 a2).requests.head?
      = some (mainRequest (getModel table defaultId defaultInfo opts).1
          (getModel table defaultId defaultInfo opts).2
          (formatMessages (makePromptConcise sp) msgs) (needsTools msgs)) := by
  cases he : a1.err with
  | none =>
    rw [createMessage_ok table defaultId defaultInfo opts sp msgs reqId t0 t1 a1 a2 hkey he]
    rfl
  | some e =>
    by_cases h503 : is503 e = true
    · cases hretry : a2.err with
      | none =>
        rw [createMessage_503_ok table defaultId defaultInfo opts sp msgs reqId t0 t1 a1 a2 e
          hkey he h503 hretry]
        rfl
      | some e2 =>
        rw [createMessage_503_fail table defaultId defaultInfo opts sp msgs reqId t0 t1 a1 a2 e e2
          hkey he h503 hretry]
        rfl
    · rw [createMessage_plain_fail table defaultId defaultInfo opts sp msgs reqId t0 t1 a1 a2 e
        hkey he (by simpa using h503)]
      rfl

theorem createMessage_error_cases (hkey : strTruthy opts.targonApiKey = true) :
    (createMessage table defaultId defaultInfo opts sp msgs reqId t0 t1 a1 a2).error = none ∨
    ∃ e, (createMessage table defaultId defaultInfo opts sp msgs reqId t0 t1 a1 a2).error
      = some (buildErrorMessage e) := by
  cases he : a1.err with
  | none =>
    rw [createMessage_ok table defaultId defaultInfo opts sp msgs reqId t0 t1 a1 a2 hkey he]
    exact Or.inl rfl
  | some e =>
    by_cases h503 : is503 e = true
    · cases hretry : a2.err with
      | none =>
        rw [createMessage_503_ok table defaultId defaultInfo opts sp msgs reqId t0 t1 a1 a2 e
          hkey he h503 hretry]
        exact Or.inl rfl
      | some e2 =>
        rw [createMessage_503_fail table defaultId defaultInfo opts sp msgs reqId t0 t1 a1 a2 e e2
          hkey he h503 hretry]
        exact Or.inr ⟨e2, rfl⟩
    · rw [createMessage_plain_fail table defaultId defaultInfo opts sp msgs reqId t0 t1 a1 a2 e
        hkey he (by simpa using h503)]
      exact Or.inr ⟨e, rfl⟩

/-! ## Claims -/

/-- C5: for every system prompt and ordered message list, the first
request `createMessage` submits is the main Request Envelope; its message
list is a system-role entry built from the (optionally rewritten) system
prompt followed by the input messages in order, role copied verbatim and
non-string content JSON-serialized to text; the request always sets
stream = true, temperature = 0.7, and max_tokens equal to the resolved
model maximum or 4096 when absent. -/
theorem C5_request_envelope (hkey : strTruthy opts.targonApiKey = true) :
    (createMessage table defaultId defaultInfo opts sp msgs reqId t0 t1 a1 a2).requests.head?
      = some (mainRequest (getModel table defaultId defaultInfo opts).1
          (getModel table defaultId defaultInfo opts).2
          (formatMessages (makePromptConcise sp) msgs) (needsTools msgs))
    ∧ formatMessages (makePromptConcise sp) msgs
      = ⟨"system", makePromptConcise sp⟩ ::
          msgs.map (fun m => ⟨m.role, serializeContent m.content⟩)
    ∧ (∀ mid info ms wt,
        (mainRequest mid info ms wt).messages = ms
        ∧ (mainRequest mid info ms wt).stream = true
        ∧ (mainRequest mid info ms wt).temperature = 7 / 10
        ∧ (mainRequest mid info ms wt).max_tokens = jsOr info.maxTokens 4096) :=
  ⟨createMessage_head_request table defaultId defaultInfo opts sp msgs reqId t0 t1 a1 a2 hkey,
    rfl, fun _ _ _ _ => ⟨rfl, rfl, rfl, rfl⟩⟩

/-- Witness for C5 at the spec example: system prompt "Answer." and one
user message "Hi". -/
theorem C5_witness :
    (createMessage sampleTable "deepseek-ai/DeepSeek-V3" sampleInfo sampleOpts
        "Answer." [⟨"user", MsgContent.str "Hi"⟩] "r" 0 0 ⟨[], none⟩ ⟨[], none⟩).requests.head?
      = some (mainRequest
          (getModel sampleTable "deepseek-ai/DeepSeek-V3" sampleInfo sampleOpts).1
          (getModel sampleTable "deepseek-ai/DeepSeek-V3" sampleInfo sampleOpts).2
          (formatMessages (makePromptConcise "Answer.") [⟨"user", MsgContent.str "Hi"⟩])
          (needsTools [⟨"user", MsgContent.str "Hi"⟩]))
    ∧ formatMessages (makePromptConcise "Answer.") [⟨"user", MsgContent.str "Hi"⟩]
      = [⟨"system", makePromptConcise "Answer."⟩, ⟨"user", "Hi"⟩] := by
  have h := C5_request_envelope sampleTable "deepseek-ai/DeepSeek-V3" sampleInfo sampleOpts
    "Answer." [⟨"user", MsgContent.str "Hi"⟩] "r" 0 0 ⟨[], none⟩ ⟨[], none⟩ (by decide)
  exact ⟨h.1, rfl⟩

/-- C6: with no API key configured, `createMessage` fails with the
configuration error before any network call (no request issued) and
yields no fragments; with an API key configured, that error is
unreachable and a network request is made. -/
theorem C6_missing_api_key :
    (strTruthy opts.targonApiKey = false →
      createMessage table defaultId defaultInfo opts sp msgs reqId t0 t1 a1 a2
        = ⟨[], [], some "Targon API key not found"⟩)
    ∧ (strTruthy opts.targonApiKey = true →
      (createMessage table defaultId defaultInfo opts sp msgs reqId t0 t1 a1 a2).error
          ≠ some "Targon API key not found"
      ∧ (createMessage table defaultId defaultInfo opts sp msgs reqId t0 t1 a1 a2).requests
          ≠ []) := by
  constructor
  · exact fun h => createMessage_no_key table defaultId defaultInfo opts sp msgs reqId t0 t1 a1 a2 h
  · intro hkey
    constructor
    · intro heq
      rcases createMessage_error_cases table defaultId defaultInfo opts sp msgs reqId t0 t1 a1 a2
        hkey with h | ⟨e, h⟩
      · rw [h] at heq
        exact Option.noConfusion heq
      · rw [h] at heq
        have hmsg := Option.some.inj heq
        rcases buildErrorMessage_shape e with ⟨t, ht⟩
        exact targon_error_ne_key_missing t (ht ▸ hmsg)
    · intro hreq
      have hh := createMessage_head_request table defaultId defaultInfo opts sp msgs reqId t0 t1
        a1 a2 hkey
      rw [hreq] at hh
      simp at hh

/-- Witness for C6: with no key the run is the bare configuration error;
with a key the error differs from the configuration error. -/
theorem C6_witness :
    createMessage sampleTable "deepseek-ai/DeepSeek-V3" sampleInfo ⟨none, none⟩
        "Answer." [] "r" 0 0 ⟨[], none⟩ ⟨[], none⟩
      = ⟨[], [], some "Targon API key not found"⟩
    ∧ (createMessage sampleTable "deepseek-ai/DeepSeek-V3" sampleInfo sampleOpts
        "Answer." [] "r" 0 0 ⟨[], none⟩ ⟨[], none⟩).error
      ≠ some "Targon API key not found" :=
  ⟨(C6_missing_api_key sampleTable "deepseek-ai/DeepSeek-V3" sampleInfo ⟨none, none⟩
      "Answer." [] "r" 0 0 ⟨[], none⟩ ⟨[], none⟩).1 rfl,
   ((C6_missing_api_key sampleTable "deepseek-ai/DeepSeek-V3" sampleInfo sampleOpts
      "Answer." [] "r" 0 0 ⟨[], none⟩ ⟨[], none⟩).2 (by decide)).1⟩

/-- C7: `makePromptConcise` returns its argument unchanged exactly when
the argument contains, case-insensitively, "concise", "brief" or "short";
otherwise it appends the one fixed instruction suffix. -/
theorem C7_makePromptConcise_contract (s : String) :
    (makePromptConcise s = s ↔ hasConcisenessMarker s = true)
    ∧ (hasConcisenessMarker s = false → makePromptConcise s = s ++ concisenessSuffix) := by
  constructor
  · constructor
    · intro h
      by_contra hm
      have hm' : hasConcisenessMarker s = false := by simpa using hm
      unfold makePromptConcise at h
      rw [if_neg (by simp [hm'])] at h
      exact append_concisenessSuffix_ne s h
    · intro h
      unfold makePromptConcise
      rw [if_pos h]
  · intro h
    unfold makePromptConcise
    rw [if_neg (by simp [h])]

set_option maxRecDepth 40000 in
/-- Witness for C7 at the two spec examples. -/
theorem C7_witness :
    makePromptConcise "Be concise." = "Be concise."
    ∧ makePromptConcise "Answer questions." = "Answer questions." ++ concisenessSuffix :=
  ⟨(C7_makePromptConcise_contract "Be concise.").1.mpr (by decide),
   (C7_makePromptConcise_contract "Answer questions.").2 (by decide)⟩

/-- C8: `getModel` returns the table entry for the configured model id
when present in the table, and the designated default entry when the id
is absent, empty, or not configured; it never fails (it is total). -/
theorem C8_getModel_resolution :
    (∀ id info, opts.apiModelId = some id → id ≠ "" → lookupModel table id = some info →
        getModel table defaultId defaultInfo opts = (id, info))
    ∧ (∀ id, opts.apiModelId = some id → id ≠ "" → lookupModel table id = none →
        getModel table defaultId defaultInfo opts = (defaultId, defaultInfo))
    ∧ (opts.apiModelId = none →
        getModel table defaultId defaultInfo opts = (defaultId, defaultInfo))
    ∧ (opts.apiModelId = some "" →
        getModel table defaultId defaultInfo opts = (defaultId, defaultInfo)) := by
  refine ⟨?_, ?_, ?_, ?_⟩
  · intro id info h1 h2 h3
    unfold getModel
    simp [h1, h2, h3]
  · intro id h1 h2 h3
    unfold getModel
    simp [h1, h2, h3]
  · intro h1
    unfold getModel
    simp [h1]
  · intro h1
    unfold getModel
    simp [h1]

/-- Witness for C8: a configured id present in the sample table resolves
to its entry; an absent or missing id resolves to the default entry. -/
theorem C8_witness :
    getModel sampleTable "deepseek-ai/DeepSeek-V3" sampleInfo sampleOpts
      = ("deepseek-ai/DeepSeek-V3", ⟨some 8192⟩)
    ∧ getModel sampleTable "deepseek-ai/DeepSeek-V3" sampleInfo ⟨some "key", some "other"⟩
      = ("deepseek-ai/DeepSeek-V3", sampleInfo)
    ∧ getModel sampleTable "deepseek-ai/DeepSeek-V3" sampleInfo ⟨some "key", none⟩
      = ("deepseek-ai/DeepSeek-V3", sampleInfo) :=
  ⟨(C8_getModel_resolution sampleTable "deepseek-ai/DeepSeek-V3" sampleInfo sampleOpts).1
      "deepseek-ai/DeepSeek-V3" ⟨some 8192⟩ rfl (by decide) (by decide),
   (C8_getModel_resolution sampleTable "deepseek-ai/DeepSeek-V3" sampleInfo
      ⟨some "key", some "other"⟩).2.1 "other" rfl (by decide) (by decide),
   (C8_getModel_resolution sampleTable "deepseek-ai/DeepSeek-V3" sampleInfo
      ⟨some "key", none⟩).2.2.1 rfl⟩

/-- C1: for every successful call (the provider stream ends without error,
on the first attempt or on the 503 retry), exactly one Response Summary
fragment is emitted and it is the last fragment; its metrics satisfy
tokensTotal = tokensIn + tokensOut, and both token counts are zero when no
provider event carried usage counts (only first-attempt events are ever
read for usage). -/
theorem C1_one_summary_last_with_metrics
    (hsucc : (createMessage table defaultId defaultInfo opts sp msgs reqId t0 t1 a1 a2).error
      = none) :
    ∃ body resp,
      (createMessage table defaultId defaultInfo opts sp msgs reqId t0 t1 a1 a2).frags
        = body ++ [Frag.summary resp]
      ∧ (∀ r, Frag.summary r ∉ body)
      ∧ resp.metrics.tokensTotal = resp.metrics.tokensIn + resp.metrics.tokensOut
      ∧ ((∀ c ∈ a1.chunks, chunkUsage c = none) →
          resp.metrics.tokensIn = 0 ∧ resp.metrics.tokensOut = 0) := by
  by_cases hk : strTruthy opts.targonApiKey = false
  · rw [createMessage_no_key table defaultId defaultInfo opts sp msgs reqId t0 t1 a1 a2 hk]
      at hsucc
    simp at hsucc
  · have hkey : strTruthy opts.targonApiKey = true := by simpa using hk
    cases he : a1.err with
    | none =>
      rw [createMessage_ok table defaultId defaultInfo opts sp msgs reqId t0 t1 a1 a2 hkey he]
      refine ⟨(runLoop ⟨"", 0, 0⟩ a1.chunks).2,
        mkResponse reqId (getModel table defaultId defaultInfo opts).1
          (runLoop ⟨"", 0, 0⟩ a1.chunks).1 t0 t1, rfl, ?_, rfl, ?_⟩
      · intro r hr
        rcases runLoop_frags_shape a1.chunks ⟨"", 0, 0⟩ _ hr with ⟨s, hs⟩ | ⟨s, hs⟩ <;>
          exact Frag.noConfusion hs
      · intro hu
        have h := runLoop_tokens_no_usage a1.chunks ⟨"", 0, 0⟩ hu
        exact ⟨h.1, h.2⟩
    | some e =>
      by_cases h503 : is503 e = true
      · cases hretry : a2.err with
        | none =>
          rw [createMessage_503_ok table defaultId defaultInfo opts sp msgs reqId t0 t1 a1 a2 e
            hkey he h503 hretry]
          refine ⟨(runLoop ⟨"", 0, 0⟩ a1.chunks).2 ++
              (runRetryLoop (runLoop ⟨"", 0, 0⟩ a1.chunks).1 a2.chunks).2,
            mkResponse reqId (getModel table defaultId defaultInfo opts).1
              (runRetryLoop (runLoop ⟨"", 0, 0⟩ a1.chunks).1 a2.chunks).1 t0 t1,
            by simp [List.append_assoc], ?_, rfl, ?_⟩
          · intro r hr
            rcases List.mem_append.mp hr with hr | hr
            · rcases runLoop_frags_shape a1.chunks ⟨"", 0, 0⟩ _ hr with ⟨s, hs⟩ | ⟨s, hs⟩ <;>
                exact Frag.noConfusion hs
            · rcases runRetryLoop_frags_text a2.chunks _ _ hr with ⟨s, hs⟩
              exact Frag.noConfusion hs
          · intro hu
            have h1 := runLoop_tokens_no_usage a1.chunks ⟨"", 0, 0⟩ hu
            have h2 := runRetryLoop_tokens a2.chunks (runLoop ⟨"", 0, 0⟩ a1.chunks).1
            exact ⟨h2.1.trans h1.1, h2.2.trans h1.2⟩
        | some e2 =>
          rw [createMessage_503_fail table defaultId defaultInfo opts sp msgs reqId t0 t1 a1 a2
            e e2 hkey he h503 hretry] at hsucc
          simp at hsucc
      · rw [createMessage_plain_fail table defaultId defaultInfo opts sp msgs reqId t0 t1 a1 a2 e
          hkey he (by simpa using h503)] at hsucc
        simp at hsucc

set_option maxRecDepth 40000 in
/-- Witness for C1 at the spec simulation: chunks "Hel", "lo" and a usage
chunk with prompt_tokens 5 and completion_tokens 2 yield the fragments
"Hel", "lo" and one final summary whose metrics are 5, 2 and 7. -/
theorem C1_witness :
    (createMessage sampleTable "deepseek-ai/DeepSeek-V3" sampleInfo sampleOpts "Be concise."
        [⟨"user", MsgContent.str "Hi"⟩] "req-1" 2000 2500
        ⟨[chunkText "Hel", chunkText "lo", chunkOfUsage 5 2], none⟩ ⟨[], none⟩).frags
      = [Frag.text "Hel", Frag.text "lo",
         Frag.summary ⟨"req-1", "deepseek-ai/DeepSeek-V3", 2, "Hello", ⟨5, 2, 7, 500⟩⟩]
    ∧ ∃ body resp,
        (createMessage sampleTable "deepseek-ai/DeepSeek-V3" sampleInfo sampleOpts "Be concise."
            [⟨"user", MsgContent.str "Hi"⟩] "req-1" 2000 2500
            ⟨[chunkText "Hel", chunkText "lo", chunkOfUsage 5 2], none⟩ ⟨[], none⟩).frags
          = body ++ [Frag.summary resp]
        ∧ (∀ r, Frag.summary r ∉ body)
        ∧ resp.metrics.tokensTotal = resp.metrics.tokensIn + resp.metrics.tokensOut
        ∧ ((∀ c ∈ [chunkText "Hel", chunkText "lo", chunkOfUsage 5 2], chunkUsage c = none) →
            resp.metrics.tokensIn = 0 ∧ resp.metrics.tokensOut = 0) :=
  ⟨by decide,
   C1_one_summary_last_with_metrics sampleTable "deepseek-ai/DeepSeek-V3" sampleInfo sampleOpts
     "Be concise." [⟨"user", MsgContent.str "Hi"⟩] "req-1" 2000 2500
     ⟨[chunkText "Hel", chunkText "lo", chunkOfUsage 5 2], none⟩ ⟨[], none⟩ (by decide)⟩

/-- C2: when the first provider call fails with a 503 (status 503 or a
message containing "503") and the retry stream succeeds, the adapter
issues exactly the main request followed by the simplified retry request
(same message list, no tools, temperature 0, max_tokens 1024), the retry
loop yields content fragments only and never touches the token counters,
one Response Summary ends the sequence, and no error reaches the
caller. -/
theorem C2_503_retry_once_simplified (e : ApiError)
    (hkey : strTruthy opts.targonApiKey = true)
    (he : a1.err = some e) (h503 : is503 e = true) (hretry : a2.err = none) :
    (createMessage table defaultId defaultInfo opts sp msgs reqId t0 t1 a1 a2).error = none
    ∧ (createMessage table defaultId defaultInfo opts sp msgs reqId t0 t1 a1 a2).requests
      = [mainRequest (getModel table defaultId defaultInfo opts).1
           (getModel table defaultId defaultInfo opts).2
           (formatMessages (makePromptConcise sp) msgs) (needsTools msgs),
         retryRequest (getModel table defaultId defaultInfo opts).1
           (formatMessages (makePromptConcise sp) msgs)]
    ∧ (∀ mid ms, (retryRequest mid ms).messages = ms
        ∧ (retryRequest mid ms).tools = false
        ∧ (retryRequest mid ms).temperature = 0
        ∧ (retryRequest mid ms).max_tokens = 1024)
    ∧ (∀ f ∈ (runRetryLoop (runLoop ⟨"", 0, 0⟩ a1.chunks).1 a2.chunks).2, ∃ s, f = Frag.text s)
    ∧ (∀ st cs, (runRetryLoop st cs).1.tokensIn = st.tokensIn
        ∧ (runRetryLoop st cs).1.tokensOut = st.tokensOut)
    ∧ ∃ resp, (createMessage table defaultId defaultInfo opts sp msgs reqId t0 t1 a1 a2).frags
        = ((runLoop ⟨"", 0, 0⟩ a1.chunks).2
            ++ (runRetryLoop (runLoop ⟨"", 0, 0⟩ a1.chunks).1 a2.chunks).2)
          ++ [Frag.summary resp] := by
  rw [createMessage_503_ok table defaultId defaultInfo opts sp msgs reqId t0 t1 a1 a2 e
    hkey he h503 hretry]
  refine ⟨rfl, rfl, fun mid ms => ⟨rfl, rfl, rfl, rfl⟩,
    fun f hf => runRetryLoop_frags_text a2.chunks _ f hf,
    fun st cs => runRetryLoop_tokens cs st,
    mkResponse reqId (getModel table defaultId defaultInfo opts).1
      (runRetryLoop (runLoop ⟨"", 0, 0⟩ a1.chunks).1 a2.chunks).1 t0 t1,
    by simp [List.append_assoc]⟩

/-- Witness for C2 at the spec simulation: a first call failing with
status 503 and a retry succeeding with chunk "ok" yield exactly one
content fragment "ok" and one summary fragment, and no error. -/
theorem C2_witness :
    (createMessage sampleTable "deepseek-ai/DeepSeek-V3" sampleInfo sampleOpts "Be concise."
        [⟨"user", MsgContent.str "Hi"⟩] "r" 2000 2500
        ⟨[], some ⟨some 503, "Service Unavailable"⟩⟩ ⟨[chunkText "ok"], none⟩).frags
      = [Frag.text "ok",
         Frag.summary ⟨"r", "deepseek-ai/DeepSeek-V3", 2, "ok", ⟨0, 0, 0, 500⟩⟩]
    ∧ (createMessage sampleTable "deepseek-ai/DeepSeek-V3" sampleInfo sampleOpts "Be concise."
        [⟨"user", MsgContent.str "Hi"⟩] "r" 2000 2500
        ⟨[], some ⟨some 503, "Service Unavailable"⟩⟩ ⟨[chunkText "ok"], none⟩).error = none :=
  ⟨by decide,
   (C2_503_retry_once_simplified sampleTable "deepseek-ai/DeepSeek-V3" sampleInfo sampleOpts
     "Be concise." [⟨"user", MsgContent.str "Hi"⟩] "r" 2000 2500
     ⟨[], some ⟨some 503, "Service Unavailable"⟩⟩ ⟨[chunkText "ok"], none⟩
     ⟨some 503, "Service Unavailable"⟩ (by decide) rfl (by decide) rfl).1⟩

/-- C3: for every failure other than a recovered 503 (a non-503 first
failure, or a failed retry), exactly one error is raised; its message
embeds the HTTP status code when the error carries a truthy one, the
fixed remedy hint matching the error text is appended, and the fragments
already yielded are exactly the loop outputs (nothing is retracted). -/
theorem C3_general_error_handling (e efinal : ApiError)
    (hkey : strTruthy opts.targonApiKey = true)
    (he : a1.err = some e)
    (hfail : (is503 e = false ∧ efinal = e) ∨ (is503 e = true ∧ a2.err = some efinal)) :
    (createMessage table defaultId defaultInfo opts sp msgs reqId t0 t1 a1 a2).error
      = some (buildErrorMessage efinal)
    ∧ (∀ n, efinal.status = some n → n ≠ 0 →
        jsIncludes (buildErrorMessage efinal) (toString n) = true)
    ∧ (jsIncludes efinal.message "401" = true →
        ∃ pre, buildErrorMessage efinal = pre ++ hint401)
    ∧ ((jsIncludes efinal.message "401" || jsIncludes efinal.message "403" ||
        jsIncludes efinal.message "404" || jsIncludes efinal.message "429" ||
        jsIncludes efinal.message "500" || jsIncludes efinal.message "502" ||
        jsIncludes efinal.message "503") = true →
        ∃ pre h, buildErrorMessage efinal = pre ++ h ∧
          (h = hint401 ∨ h = hint403 ∨ h = hint404 ∨ h = hint429 ∨ h = hint5xx))
    ∧ (is503 e = false →
        (createMessage table defaultId defaultInfo opts sp msgs reqId t0 t1 a1 a2).frags
          = (runLoop ⟨"", 0, 0⟩ a1.chunks).2)
    ∧ (is503 e = true →
        (createMessage table defaultId defaultInfo opts sp msgs reqId t0 t1 a1 a2).frags
          = (runLoop ⟨"", 0, 0⟩ a1.chunks).2
            ++ (runRetryLoop (runLoop ⟨"", 0, 0⟩ a1.chunks).1 a2.chunks).2) := by
  have hstatus : ∀ n, efinal.status = some n → n ≠ 0 →
      jsIncludes (buildErrorMessage efinal) (toString n) = true :=
    fun n hs hn => buildErrorMessage_contains_status efinal n hs hn
  have h401 : jsIncludes efinal.message "401" = true →
      ∃ pre, buildErrorMessage efinal = pre ++ hint401 := by
    intro h
    have heq := buildErrorMessage_append_hint efinal
    rw [selectHint_401 efinal.message h] at heq
    exact ⟨_, heq⟩
  have hhint : (jsIncludes efinal.message "401" || jsIncludes efinal.message "403" ||
      jsIncludes efinal.message "404" || jsIncludes efinal.message "429" ||
      jsIncludes efinal.message "500" || jsIncludes efinal.message "502" ||
      jsIncludes efinal.message "503") = true →
      ∃ pre h, buildErrorMessage efinal = pre ++ h ∧
        (h = hint401 ∨ h = hint403 ∨ h = hint404 ∨ h = hint429 ∨ h = hint5xx) := by
    intro h
    exact ⟨_, selectHint efinal.message, buildErrorMessage_append_hint efinal,
      selectHint_mem efinal.message h⟩
  rcases hfail with ⟨h503, rfl⟩ | ⟨h503, hretry⟩
  · rw [createMessage_plain_fail table defaultId defaultInfo opts sp msgs reqId t0 t1 a1 a2
      efinal hkey he h503]
    exact ⟨rfl, hstatus, h401, hhint, fun _ => rfl,
      fun hc => absurd (h503.symm.trans hc) (by simp)⟩
  · rw [createMessage_503_fail table defaultId defaultInfo opts sp msgs reqId t0 t1 a1 a2
      e efinal hkey he h503 hretry]
    exact ⟨rfl, hstatus, h401, hhint,
      fun hc => absurd (h503.symm.trans hc) (by simp), fun _ => rfl⟩

set_option maxRecDepth 40000 in
/-- Witness for C3 at the spec simulation: a call failing with status 401
and message "401 Unauthorized" raises one error containing "401" ending
in the authentication hint, with no fragments yielded. -/
theorem C3_witness :
    (createMessage sampleTable "deepseek-ai/DeepSeek-V3" sampleInfo sampleOpts "Be concise."
        [⟨"user", MsgContent.str "Hi"⟩] "r" 2000 2500
        ⟨[], some ⟨some 401, "401 Unauthorized"⟩⟩ ⟨[], none⟩).error
      = some (buildErrorMessage ⟨some 401, "401 Unauthorized"⟩)
    ∧ buildErrorMessage ⟨some 401, "401 Unauthorized"⟩
      = "Targon API error: 401 401 Unauthorized - Please check your API key and ensure it is valid."
    ∧ jsIncludes (buildErrorMessage ⟨some 401, "401 Unauthorized"⟩) "401" = true
    ∧ (createMessage sampleTable "deepseek-ai/DeepSeek-V3" sampleInfo sampleOpts "Be concise."
        [⟨"user", MsgContent.str "Hi"⟩] "r" 2000 2500
        ⟨[], some ⟨some 401, "401 Unauthorized"⟩⟩ ⟨[], none⟩).frags = [] :=
  ⟨(C3_general_error_handling sampleTable "deepseek-ai/DeepSeek-V3" sampleInfo sampleOpts
      "Be concise." [⟨"user", MsgContent.str "Hi"⟩] "r" 2000 2500
      ⟨[], some ⟨some 401, "401 Unauthorized"⟩⟩ ⟨[], none⟩
      ⟨some 401, "401 Unauthorized"⟩ ⟨some 401, "401 Unauthorized"⟩
      (by decide) rfl (Or.inl ⟨by decide, rfl⟩)).1,
   by decide, by decide,
   ((C3_general_error_handling sampleTable "deepseek-ai/DeepSeek-V3" sampleInfo sampleOpts
      "Be concise." [⟨"user", MsgContent.str "Hi"⟩] "r" 2000 2500
      ⟨[], some ⟨some 401, "401 Unauthorized"⟩⟩ ⟨[], none⟩
      ⟨some 401, "401 Unauthorized"⟩ ⟨some 401, "401 Unauthorized"⟩
      (by decide) rfl (Or.inl ⟨by decide, rfl⟩)).2.2.2.2.1 (by decide)).trans rfl⟩

/-- C9: on the successful 503 retry path, the response buffer and the
captured token counters are not reset: the retry summary content is the
text extracted during the failed first attempt concatenated with the
retry text, its token counts are those captured during the first attempt,
and the retry loop never changes the counters. -/
theorem C9_retry_preserves_buffer_and_tokens (e : ApiError)
    (hkey : strTruthy opts.targonApiKey = true)
    (he : a1.err = some e) (h503 : is503 e = true) (hretry : a2.err = none) :
    ∃ resp,
      (createMessage table defaultId defaultInfo opts sp msgs reqId t0 t1 a1 a2).frags
        = ((runLoop ⟨"", 0, 0⟩ a1.chunks).2
            ++ (runRetryLoop (runLoop ⟨"", 0, 0⟩ a1.chunks).1 a2.chunks).2)
          ++ [Frag.summary resp]
      ∧ resp.content
        = concatAll (a1.chunks.map extractContent)
          ++ concatAll (a2.chunks.map retryExtractContent)
      ∧ resp.metrics.tokensIn = (runLoop ⟨"", 0, 0⟩ a1.chunks).1.tokensIn
      ∧ resp.metrics.tokensOut = (runLoop ⟨"", 0, 0⟩ a1.chunks).1.tokensOut
      ∧ (∀ st cs, (runRetryLoop st cs).1.tokensIn = st.tokensIn
          ∧ (runRetryLoop st cs).1.tokensOut = st.tokensOut) := by
  rw [createMessage_503_ok table defaultId defaultInfo opts sp msgs reqId t0 t1 a1 a2 e
    hkey he h503 hretry]
  refine ⟨mkResponse reqId (getModel table defaultId defaultInfo opts).1
      (runRetryLoop (runLoop ⟨"", 0, 0⟩ a1.chunks).1 a2.chunks).1 t0 t1,
    by simp [List.append_assoc], ?_, ?_, ?_,
    fun st cs => runRetryLoop_tokens cs st⟩
  · show (runRetryLoop (runLoop ⟨"", 0, 0⟩ a1.chunks).1 a2.chunks).1.responseText = _
    rw [runRetryLoop_responseText, runLoop_responseText]
    simp
  · exact (runRetryLoop_tokens a2.chunks (runLoop ⟨"", 0, 0⟩ a1.chunks).1).1
  · exact (runRetryLoop_tokens a2.chunks (runLoop ⟨"", 0, 0⟩ a1.chunks).1).2

set_option maxRecDepth 40000 in
/-- Witness for C9: a first attempt that streams "par" and usage counts 3
and 1 before failing with 503, followed by a retry that streams "tial",
yields a summary with content "partial" and token counts 3 and 1. -/
theorem C9_witness :
    (createMessage sampleTable "deepseek-ai/DeepSeek-V3" sampleInfo sampleOpts "Be concise."
        [⟨"user", MsgContent.str "Hi"⟩] "r" 2000 2500
        ⟨[chunkText "par", chunkOfUsage 3 1], some ⟨some 503, "oops"⟩⟩
        ⟨[chunkText "tial"], none⟩).frags
      = [Frag.text "par", Frag.text "tial",
         Frag.summary ⟨"r", "deepseek-ai/DeepSeek-V3", 2, "partial", ⟨3, 1, 4, 500⟩⟩]
    ∧ ∃ resp,
        (createMessage sampleTable "deepseek-ai/DeepSeek-V3" sampleInfo sampleOpts "Be concise."
            [⟨"user", MsgContent.str "Hi"⟩] "r" 2000 2500
            ⟨[chunkText "par", chunkOfUsage 3 1], some ⟨some 503, "oops"⟩⟩
            ⟨[chunkText "tial"], none⟩).frags
          = ((runLoop ⟨"", 0, 0⟩ [chunkText "par", chunkOfUsage 3 1]).2
              ++ (runRetryLoop (runLoop ⟨"", 0, 0⟩ [chunkText "par", chunkOfUsage 3 1]).1
                   [chunkText "tial"]).2)
            ++ [Frag.summary resp]
        ∧ resp.content
          = concatAll ([chunkText "par", chunkOfUsage 3 1].map extractContent)
            ++ concatAll ([chunkText "tial"].map retryExtractContent)
        ∧ resp.metrics.tokensIn
          = (runLoop ⟨"", 0, 0⟩ [chunkText "par", chunkOfUsage 3 1]).1.tokensIn
        ∧ resp.metrics.tokensOut
          = (runLoop ⟨"", 0, 0⟩ [chunkText "par", chunkOfUsage 3 1]).1.tokensOut
        ∧ (∀ st cs, (runRetryLoop st cs).1.tokensIn = st.tokensIn
            ∧ (runRetryLoop st cs).1.tokensOut = st.tokensOut) :=
  ⟨by decide,
   C9_retry_preserves_buffer_and_tokens sampleTable "deepseek-ai/DeepSeek-V3" sampleInfo
     sampleOpts "Be concise." [⟨"user", MsgContent.str "Hi"⟩] "r" 2000 2500
     ⟨[chunkText "par", chunkOfUsage 3 1], some ⟨some 503, "oops"⟩⟩
     ⟨[chunkText "tial"], none⟩ ⟨some 503, "oops"⟩ (by decide) rfl (by decide) rfl⟩

/-- C10: synthesized tool-call fragments are yielded to the caller but
never enter the response buffer: on success every tool block a chunk
synthesizes appears among the yielded fragments, while the final summary
content is exactly the concatenation of the extracted content deltas. -/
theorem C10_summary_content_excludes_tool_blocks
    (hkey : strTruthy opts.targonApiKey = true) (hok : a1.err = none) :
    ∃ resp,
      (createMessage table defaultId defaultInfo opts sp msgs reqId t0 t1 a1 a2).frags
        = (runLoop ⟨"", 0, 0⟩ a1.chunks).2 ++ [Frag.summary resp]
      ∧ resp.content = concatAll (a1.chunks.map extractContent)
      ∧ (∀ c ∈ a1.chunks, ∀ t ∈ chunkToolFrags c,
          Frag.toolCall t ∈ (runLoop ⟨"", 0, 0⟩ a1.chunks).2) := by
  rw [createMessage_ok table defaultId defaultInfo opts sp msgs reqId t0 t1 a1 a2 hkey hok]
  refine ⟨mkResponse reqId (getModel table defaultId defaultInfo opts).1
      (runLoop ⟨"", 0, 0⟩ a1.chunks).1 t0 t1, rfl, ?_,
    fun c hc t ht => runLoop_toolCall_mem a1.chunks ⟨"", 0, 0⟩ c t hc ht⟩
  show (runLoop ⟨"", 0, 0⟩ a1.chunks).1.responseText = _
  rw [runLoop_responseText]
  simp

set_option maxRecDepth 40000 in
/-- Witness for C10: a content chunk "Hi" followed by a tool-call chunk
yields the tagged block as a fragment while the summary content is just
"Hi". -/
theorem C10_witness :
    (createMessage sampleTable "deepseek-ai/DeepSeek-V3" sampleInfo sampleOpts "Be concise."
        [⟨"user", MsgContent.str "Hi"⟩] "r" 2000 2500
        ⟨[chunkText "Hi", chunkTool "\x7b\"question\": \"Pick one\"\x7d"], none⟩
        ⟨[], none⟩).frags
      = [Frag.text "Hi",
         Frag.toolCall
           "<ask_followup_question>\n<question>Pick one</question>\n</ask_followup_question>",
         Frag.summary ⟨"r", "deepseek-ai/DeepSeek-V3", 2, "Hi", ⟨0, 0, 0, 500⟩⟩]
    ∧ ∃ resp,
        (createMessage sampleTable "deepseek-ai/DeepSeek-V3" sampleInfo sampleOpts "Be concise."
            [⟨"user", MsgContent.str "Hi"⟩] "r" 2000 2500
            ⟨[chunkText "Hi", chunkTool "\x7b\"question\": \"Pick one\"\x7d"], none⟩
            ⟨[], none⟩).frags
          = (runLoop ⟨"", 0, 0⟩
              [chunkText "Hi", chunkTool "\x7b\"question\": \"Pick one\"\x7d"]).2
            ++ [Frag.summary resp]
        ∧ resp.content
          = concatAll ([chunkText "Hi",
              chunkTool "\x7b\"question\": \"Pick one\"\x7d"].map extractContent)
        ∧ (∀ c ∈ [chunkText "Hi", chunkTool "\x7b\"question\": \"Pick one\"\x7d"],
            ∀ t ∈ chunkToolFrags c,
            Frag.toolCall t ∈ (runLoop ⟨"", 0, 0⟩
              [chunkText "Hi", chunkTool "\x7b\"question\": \"Pick one\"\x7d"]).2) :=
  ⟨by decide,
   C10_summary_content_excludes_tool_blocks sampleTable "deepseek-ai/DeepSeek-V3" sampleInfo
     sampleOpts "Be concise." [⟨"user", MsgContent.str "Hi"⟩] "r" 2000 2500
     ⟨[chunkText "Hi", chunkTool "\x7b\"question\": \"Pick one\"\x7d"], none⟩
     ⟨[], none⟩ (by decide) rfl⟩

set_option maxRecDepth 40000 in
/-- C4 counterexample: tool-call arguments split across two deltas are
never accumulated. The concatenation of the two fragments below parses to
an object with the non-empty question "Pick one", yet processing the two
deltas yields no fragment at all, so no tagged block is synthesized once
the complete, parseable argument object has become available. -/
theorem C4_args_not_accumulated_counterexample :
    jsonParse ("\x7b\"question\": \"Pi" ++ "ck one\"\x7d")
      = some (.obj [("question", .str "Pick one")])
    ∧ (runLoop ⟨"", 0, 0⟩
        [chunkTool "\x7b\"question\": \"Pi", chunkTool "ck one\"\x7d"]).2 = [] :=
  ⟨rfl, by decide⟩

/-- C4 (amended): each tool-call delta arguments string is parsed by
itself, with no accumulation across deltas. For a delta naming the
hardcoded tool with a non-empty arguments string: an unparseable string
is silently skipped; a string parsing to an object whose question field
is a non-empty string yields the fixed tagged block, with an options
block governed by `optionsText` (empty when the options field is absent);
a parse without a question field is skipped. Malformed arguments never
raise: a run whose stream ends cleanly reports no error whatever its
chunks contain. -/
theorem C4_per_delta_tool_call (tc : ToolCall) (f : ToolCallFunction) (s : String)
    (h1 : tc.function = some f) (h2 : f.name = some "ask_followup_question")
    (h3 : f.arguments = some s) (h4 : s ≠ "") :
    (jsonParse s = none → toolCallFrag tc = none)
    ∧ (∀ args q, jsonParse s = some args → jsField args "question" = some (.str q) →
        q ≠ "" →
        toolCallFrag tc = some ("<ask_followup_question>\n<question>" ++ q ++ "</question>"
          ++ optionsText args ++ "\n</ask_followup_question>"))
    ∧ (∀ args, jsonParse s = some args → jsField args "question" = none →
        toolCallFrag tc = none)
    ∧ (∀ args, jsField args "options" = none → optionsText args = "")
    ∧ (∀ tbl did dinfo o spx m rid x y att2 chunks, strTruthy o.targonApiKey = true →
        (createMessage tbl did dinfo o spx m rid x y ⟨chunks, none⟩ att2).error = none) := by
  refine ⟨?_, ?_, ?_, ?_, ?_⟩
  · intro hparse
    unfold toolCallFrag
    simp [h1, h2, h3, h4, hparse]
  · intro args q hargs hq hq'
    unfold toolCallFrag
    simp [h1, h2, h3, h4, hargs, hq, jsTruthy, hq', jsToString]
  · intro args hargs hq
    unfold toolCallFrag
    simp [h1, h2, h3, h4, hargs, hq]
  · intro args h
    unfold optionsText
    simp [h]
  · intro tbl did dinfo o spx m rid x y att2 chunks hk
    rw [createMessage_ok tbl did dinfo o spx m rid x y ⟨chunks, none⟩ att2 hk rfl]

set_option maxRecDepth 40000 in
/-- Witness for C4 (amended), at the spec example: a delta carrying the
complete arguments object with question "Pick one" synthesizes exactly
the claimed tagged block. -/
theorem C4_witness :
    toolCallFrag
        ⟨some ⟨some "ask_followup_question", some "\x7b\"question\": \"Pick one\"\x7d"⟩⟩
      = some "<ask_followup_question>\n<question>Pick one</question>\n</ask_followup_question>" := by
  have h := (C4_per_delta_tool_call
      ⟨some ⟨some "ask_followup_question", some "\x7b\"question\": \"Pick one\"\x7d"⟩⟩
      ⟨some "ask_followup_question", some "\x7b\"question\": \"Pick one\"\x7d"⟩
      "\x7b\"question\": \"Pick one\"\x7d" rfl rfl rfl (by decide)).2.1
      (JsVal.obj [("question", JsVal.str "Pick one")]) "Pick one" rfl rfl (by decide)
  rw [h]
  rfl

end Targon
